import Mathlib

/-!
# Facial attendance system — verification of the face gallery, matcher and
# attendance flows

Shallow embedding of the TypeScript/JavaScript sources of the `Facial`
repository:

* `src/src/services/facesRepository.ts` (faces store + face recognition
  service: `toLabeledDescriptor`, `loadFaceMatcher`, `recognizeUserByFace`),
  together with its older variants (`src/unnamed/part_001`,
  `src/unnamed/part_002`);
* the presence check-in pages (`src/unnamed/part_005` — the flow with
  embedding write-through — and `src/unnamed/part_006` / the older
  `src/pages/PresencePage.tsx`, which block on identity mismatch);
* the enrollment page average (`averageEmbedding` in
  `FaceEnrollmentPage`, `src/unnamed/part_004`);
* the anti-fraud backend check-in endpoint (`src/backend/server.js`).

Numbers are modelled by `ℚ`.  JavaScript `NaN` propagation (needed for the
averaging code, which can add a number to `undefined`) is modelled by
`Option ℚ` with `none` for `NaN`.  A thrown JavaScript exception is
modelled by `none` / a dedicated `fail` constructor of the result type.

The third-party `face-api.js` matcher (`FaceMatcher.findBestMatch`) is not
part of the repository; where its behaviour is needed it is modelled from
the specification (§4.3/§4.4), and each such definition carries a
`Modelled from the spec:` doc comment.  A distance comparison
`dist ≤ τ` is represented throughout as `dist² ≤ τ²` (squared Euclidean
distance against a squared threshold), which is equivalent for the
non-negative thresholds the code uses and keeps every definition
executable over `ℚ`.
-/

/-- A face embedding vector (the model emits fixed-length numeric vectors). -/
abbrev Vec := List ℚ

/-- Squared Euclidean distance between two vectors, the square of the metric
`face-api.js` uses for matching. -/
def dist2 (a b : Vec) : ℚ :=
  (List.zipWith (fun x y => (x - y) ^ 2) a b).sum

/-- The gallery: one `(label, vector)` entry per enrolled sample, as produced
by expanding each `LabeledFaceDescriptors` of `loadFaceMatcher` into one
labelled sample per descriptor. -/
abbrev Gallery := List (String × Vec)

/-- Modelled from the spec: `face-api.js`'s `FaceMatcher.findBestMatch` is not
in the repository; §4.4 specifies «compute distance from probe to every sample
in the gallery …; take the global minimum; attribute to that sample's label».
`bestOf` folds over the remaining samples keeping the first sample attaining
the minimal (squared) distance. -/
def bestOf (probe : Vec) : String × ℚ → Gallery → String × ℚ
  | acc, [] => acc
  | acc, (l, v) :: rest =>
    let d := dist2 probe v
    if d < acc.2 then bestOf probe (l, d) rest else bestOf probe acc rest

/-- Modelled from the spec: the best match of a probe against the gallery —
`none` for an empty gallery (§4.4: «`NoMatch` (gallery empty, …)»), otherwise
the label and squared distance of the closest sample. -/
def findBestMatch (g : Gallery) (probe : Vec) : Option (String × ℚ) :=
  match g with
  | [] => none
  | (l, v) :: rest => some (bestOf probe (l, dist2 probe v) rest)

/-- The minimum squared distance from a probe to a non-empty gallery (by
convention `0` on the empty gallery, which is never used). -/
def minDist2 (probe : Vec) : Gallery → ℚ
  | [] => 0
  | s :: rest => rest.foldl (fun m t => min m (dist2 probe t.2)) (dist2 probe s.2)

/-- Result type of `recognizeUserByFace`
(`{ recognized: false } | { recognized: true; userId; distance }`). -/
inductive RecognizeResult where
  | noMatch : RecognizeResult
  | matched : String → ℚ → RecognizeResult
deriving DecidableEq, Repr

/-- The `recognized` field of the result union. -/
def RecognizeResult.recognized : RecognizeResult → Bool
  | .noMatch => false
  | .matched _ _ => true

/-- The `userId` field (present only on a recognized result). -/
def RecognizeResult.userId : RecognizeResult → Option String
  | .noMatch => none
  | .matched uid _ => some uid

/-- The `distance` field (present only on a recognized result; here the
squared distance, consistently with the squared representation). -/
def RecognizeResult.distance : RecognizeResult → Option ℚ
  | .noMatch => none
  | .matched _ d => some d

/-- The default matching threshold: both `loadFaceMatcher` and
`recognizeUserByFace` declare `threshold = 0.6`. -/
def defaultThreshold : ℚ := 6 / 10

/-- `recognizeUserByFace` (facesRepository.ts, recognition part, lines
144–171), given the already-built gallery, the detector output (`none` when
`detectSingleFace` finds no face) and the threshold `τ`:
`if (!bestMatch || bestMatch.label === 'unknown' || bestMatch.distance > threshold)
 return { recognized: false }`.  The comparison `distance > threshold` is
represented as `dist² > τ²`. -/
def recognizeUserByFace (g : Gallery) (detection : Option Vec) (τ : ℚ) :
    RecognizeResult :=
  match detection with
  | none => .noMatch
  | some probe =>
    match findBestMatch g probe with
    | none => .noMatch
    | some (label, d2) =>
      if label = "unknown" ∨ d2 > τ ^ 2 then .noMatch
      else .matched label d2

-- Auxiliary lemmas relating `bestOf` to the fold computing the minimum.

theorem bestOf_snd (probe : Vec) (acc : String × ℚ) (g : Gallery) :
    (bestOf probe acc g).2 =
      g.foldl (fun m t => min m (dist2 probe t.2)) acc.2 := by
  induction g generalizing acc with
  | nil => rfl
  | cons s rest ih =>
    rcases s with ⟨l, v⟩
    rcases acc with ⟨l₀, d₀⟩
    by_cases h : dist2 probe v < d₀
    · have hstep : bestOf probe (l₀, d₀) ((l, v) :: rest) =
          bestOf probe (l, dist2 probe v) rest := by
        simp [bestOf, h]
      rw [hstep, ih, List.foldl_cons]
      congr 1
      simp [min_eq_right (le_of_lt h)]
    · have hstep : bestOf probe (l₀, d₀) ((l, v) :: rest) =
          bestOf probe (l₀, d₀) rest := by
        simp [bestOf, h]
      rw [hstep, ih, List.foldl_cons]
      congr 1
      simp [min_eq_left (le_of_not_lt h)]

theorem bestOf_fst_mem (probe : Vec) (acc : String × ℚ) (g : Gallery) :
    (bestOf probe acc g).1 = acc.1 ∨ (bestOf probe acc g).1 ∈ g.map Prod.fst := by
  induction g generalizing acc with
  | nil => exact Or.inl rfl
  | cons s rest ih =>
    rcases s with ⟨l, v⟩
    by_cases h : dist2 probe v < acc.2
    · have hstep : bestOf probe acc ((l, v) :: rest) =
          bestOf probe (l, dist2 probe v) rest := by
        simp [bestOf, h]
      rw [hstep]
      rcases ih (l, dist2 probe v) with h' | h'
      · exact Or.inr (by simp [h'])
      · exact Or.inr (by simp [h'])
    · have hstep : bestOf probe acc ((l, v) :: rest) =
          bestOf probe acc rest := by
        simp [bestOf, h]
      rw [hstep]
      rcases ih acc with h' | h'
      · exact Or.inl h'
      · exact Or.inr (by simp [h'])

theorem findBestMatch_eq (g : Gallery) (probe : Vec) (hne : g ≠ []) :
    ∃ l, findBestMatch g probe = some (l, minDist2 probe g) ∧
      l ∈ g.map Prod.fst := by
  match g with
  | [] => exact absurd rfl hne
  | (l₀, v₀) :: rest =>
    refine ⟨(bestOf probe (l₀, dist2 probe v₀) rest).1, ?_, ?_⟩
    · have h := bestOf_snd probe (l₀, dist2 probe v₀) rest
      simp only [findBestMatch, minDist2]
      rw [← h]
    · rcases bestOf_fst_mem probe (l₀, dist2 probe v₀) rest with h | h
      · simp [h]
      · simp [h]

/-! ## Faces store and gallery construction -/

/-- The runtime shape of a stored `embeddings` field.  The TypeScript type
(`types.ts`) declares `Record<string, number[]>` (a keyed mapping), but
documents written before normalization may hold an ordered list; the store
(`upsertFace` / `addEmbedding` / `normalizeEmbeddings`) normalizes lists to
keyed mappings on write. -/
inductive EmbJS where
  | list : List Vec → EmbJS
  | mapp : List (String × Vec) → EmbJS
deriving DecidableEq, Repr

/-- One document of the `faces` collection (`FaceDocument` in `types.ts`). -/
structure FaceDoc where
  userId : String
  displayName : String
  email : String
  active : Bool
  embeddings : EmbJS
deriving DecidableEq, Repr

/-- `normalizeEmbeddings` (facesRepository variant `src/unnamed/part_000`, and
inlined in `upsertFace` / `addEmbedding` of
`src/src/services/facesRepository.ts`): a list is re-keyed with its index as a
string key, a keyed mapping is kept as is. -/
def normalizeEmbeddings : EmbJS → List (String × Vec)
  | .list l => (l.enum).map (fun p => (toString p.1, p.2))
  | .mapp m => m

/-- `toLabeledDescriptor` (facesRepository.ts recognition part, lines
124–127): `face.embeddings.map((emb) => new Float32Array(emb))`.
JavaScript `.map` exists only on arrays: on the keyed-mapping shape the call
throws `TypeError` (`face.embeddings.map is not a function`), modelled by
`none`. -/
def toLabeledDescriptor (face : FaceDoc) : Option (String × List Vec) :=
  match face.embeddings with
  | .list l => some (face.userId, l)
  | .mapp _ => none

/-- Gallery construction: `loadFaceMatcher` maps `toLabeledDescriptor` over
the active faces (`faces.map(toLabeledDescriptor)`, evaluated left to right,
the first throw aborting the build) and hands the labelled descriptors to
`new FaceMatcher(labeled, threshold)`.  The expansion of each labelled
descriptor into one gallery sample per vector is Modelled from the spec:
§4.3 «expand its embedding mapping into one labeled sample per vector
(label = identityId)». -/
def buildGallery : List FaceDoc → Option Gallery
  | [] => some []
  | f :: fs =>
    match toLabeledDescriptor f with
    | none => none
    | some (l, vs) =>
      (buildGallery fs).map (fun g => vs.map (fun v => (l, v)) ++ g)

/-- Modelled from the spec: the intended gallery expansion of §4.3, which
expands the stored keyed mapping (after normalization) into one labelled
sample per vector regardless of the stored shape.  Used only to state what
the gallery build was supposed to produce. -/
def specBuildGallery (faces : List FaceDoc) : Gallery :=
  faces.flatMap (fun f =>
    (normalizeEmbeddings f.embeddings).map (fun p => (f.userId, p.2)))

/-- The full recognition pipeline on a snapshot of the `faces` collection:
`listActiveFaces` keeps the documents with `active == true`, the gallery is
built from them, and the probe is matched; `none` models the gallery build
throwing. -/
def recognizeFromFaces (faces : List FaceDoc) (detection : Option Vec)
    (τ : ℚ) : Option RecognizeResult :=
  (buildGallery (faces.filter (·.active))).map
    (fun g => recognizeUserByFace g detection τ)

/-! ## Enrollment averaging (`averageEmbedding`, FaceEnrollmentPage) -/

/-- A JavaScript number that may be `NaN` (`none`).  The averaging loop can
add a captured value to `undefined` (reading past the end of the `sum`
array), which yields `NaN`; `NaN` is absorbing for `+` and `/`. -/
abbrev JSNum := Option ℚ

/-- JavaScript addition on possibly-`NaN` values (`undefined + v` and
`NaN + v` are both `NaN`). -/
def jsAdd : JSNum → JSNum → JSNum
  | some a, some b => some (a + b)
  | _, _ => none

/-- One pass of `sample.forEach((value, idx) => { sum[idx] += value; })`:
positions shared with `sum` are added in place; when `sum` is exhausted the
assignment `sum[idx] += value` reads `undefined` and extends the array with a
`NaN` entry (indices grow one at a time, so no array holes arise). -/
def addInto : List JSNum → List ℚ → List JSNum
  | s, [] => s
  | [], v :: vs => jsAdd none (some v) :: addInto [] vs
  | a :: s, v :: vs => jsAdd a (some v) :: addInto s vs

/-- `averageEmbedding` (FaceEnrollmentPage, `src/unnamed/part_004` lines
391–401): returns `null` for zero samples; otherwise sums all samples into an
array sized by the first sample and divides each slot by the number of
samples.  No dimension check is performed anywhere. -/
def averageEmbedding (samples : List (List ℚ)) : Option (List JSNum) :=
  match samples with
  | [] => none
  | first :: _ =>
    let sum0 : List JSNum := List.replicate first.length (some 0)
    let total := samples.foldl addInto sum0
    some (total.map (fun v => v.map (fun q => q / (samples.length : ℚ))))

/-! ## Anti-fraud backend check-in (`src/backend/server.js`) -/

/-- `Math.round`: round half towards `+∞`. -/
def jsRound (q : ℚ) : ℤ := ⌊q + 1 / 2⌋

/-- The row the check-in query returns for the requested class: the PostGIS
distance from the request coordinates to the class location, and the stored
`radius_meters` column (schema default 30) — which the endpoint never
reads. -/
structure ClassRow where
  distanceMeters : ℚ
  radiusMeters : ℚ
deriving DecidableEq, Repr

/-- The face attributes the Azure detect call reports for one face. -/
structure FaceAttrs where
  faceId : String
  blurHigh : Bool
  noiseHigh : Bool
  noiseValue : ℚ
deriving DecidableEq, Repr

/-- A check-in request (`classId`, `lat`/`lng`, multipart selfie). -/
structure CheckInReq where
  classId : String
  hasFile : Bool
  coords : Option (ℚ × ℚ)
deriving DecidableEq, Repr

/-- The environment the endpoint consults: the class row (already `none` when
the class does not exist or the current time is outside the ±15-minute
window, since the SQL query filters on the time window) and the list of faces
the Azure detect call returns. -/
structure CheckInEnv where
  classRow : Option ClassRow
  faces : List FaceAttrs
deriving DecidableEq, Repr

/-- One row of `attendance_audit` as written by the endpoint. -/
structure AuditRow where
  classId : String
  faceIdTemp : String
  livenessScore : ℚ
deriving DecidableEq, Repr

/-- Result of `POST /api/attendance/check-in`: an early `400` (before the
transaction), a `400` produced by `throw` + `ROLLBACK` (no rows persisted),
or `200` with the committed audit rows and the rounded distance. -/
inductive CheckInResult where
  | badRequest : String → CheckInResult
  | rejected : String → CheckInResult
  | success : List AuditRow → ℤ → CheckInResult
deriving DecidableEq, Repr

/-- The audit rows a check-in outcome leaves in the store (a rejection rolls
the transaction back, so nothing is persisted). -/
def CheckInResult.rowsWritten : CheckInResult → List AuditRow
  | .success rows _ => rows
  | _ => []

/-- The geofence limit: `const MAX_DISTANCE = 30; // metros` — a constant,
independent of the class's `radius_meters` column. -/
def MAX_DISTANCE : ℚ := 30

/-- The check-in handler (`server.js` lines 92–212): selfie and GPS
preconditions, class/time lookup, geofence against `MAX_DISTANCE`, exactly
one face, blur/noise quality gates, then the audit insert and commit. -/
def checkIn (req : CheckInReq) (env : CheckInEnv) : CheckInResult :=
  if ¬req.hasFile then .badRequest "Selfie é obrigatória."
  else if req.coords = none then .badRequest "Localização GPS é obrigatória."
  else
    match env.classRow with
    | none => .rejected "Aula não encontrada ou fora do horário permitido."
    | some c =>
      if c.distanceMeters > MAX_DISTANCE then
        .rejected ("Localização inválida. Você está a " ++
          toString (jsRound c.distanceMeters) ++ "m da sala. Aproxime-se.")
      else
        match env.faces with
        | [] => .rejected "Nenhum rosto detectado. Remova máscaras e óculos escuros."
        | [face] =>
          if face.blurHigh then
            .rejected "Foto muito borrada. Mantenha a câmera firme."
          else if face.noiseHigh then
            .rejected "Imagem com muito ruído. Melhore a iluminação."
          else
            .success [⟨req.classId, face.faceId, 1 - face.noiseValue⟩]
              (jsRound c.distanceMeters)
        | _ => .rejected "Múltiplos rostos detectados. Apenas você deve aparecer na foto."

/-! ## Presence check-in pages -/

/-- Outcome of an awaited step: it returned a value or it threw. -/
inductive Outcome (α : Type) where
  | ok : α → Outcome α
  | fail : Outcome α
deriving DecidableEq, Repr

/-- The authenticated user attempting the check-in (the claiming identity). -/
structure UserT where
  sub : String
  displayName : String
  email : String
deriving DecidableEq, Repr

/-- A document of the `presences` collection (`PresenceRecord` in
`types.ts`); optional fields are `none` when the page leaves them
`undefined`. -/
structure PresenceRec where
  userId : String
  displayName : String
  email : String
  status : String
  matcherDistance : Option ℚ
  recognized : Option Bool
  recognizedUserId : Option String
  recognitionNote : Option String
deriving DecidableEq, Repr

/-- Recognition note when the probe is not in the gallery. -/
def noteNotFound : String :=
  "Face não encontrada na base. Presença registrada sem validação facial."

/-- Recognition note when the matched identity is another user. -/
def noteOtherUser : String :=
  "Face reconhecida pertence a outro usuário. Presença registrada sem validação facial."

/-- Recognition note when the matched identity is the claiming user. -/
def noteSameUser : String := "Face reconhecida para este usuário."

/-- Recognition note of the fallback record written from the catch block. -/
def noteFallback : String :=
  "Erro ao reconhecer rosto. Presença registrada sem validação facial."

/-- Page status while the embedding is generated and persisted. -/
def stEmbedding : String := "Gerando embedding e salvando no Firestore..."

/-- Page status while recognition runs. -/
def stRecognizing : String := "Reconhecendo rosto..."

/-- Page status after the embedding step finds no face — the retry-in-place
prompt. -/
def stNoFace : String :=
  "Face não detectada. Ajuste o enquadramento e tente novamente."

/-- Page status after a same-user success. -/
def stSuccessSame : String :=
  "Presença registrada com sucesso. Face confirmada para o usuário logado."

/-- Page status after a success without facial validation. -/
def stSuccessOther : String :=
  "Presença registrada sem validação facial. Confira a base de faces depois de cadastrá-las."

/-- Page status after the fallback record is written. -/
def stFallback : String :=
  "Presença registrada. O reconhecimento facial falhou, valide manualmente depois de cadastrar as faces."

/-- The record the main path of `handleCapture` (`src/unnamed/part_005`,
lines 105–115) builds from the recognition result:
`recognizedSameUser = result.recognized && result.userId === user.sub`,
status always `"present"`, `recognizedUserId` kept even on a mismatch, and
the three-way recognition note. -/
def mkPresenceRec (user : UserT) (r : RecognizeResult) : PresenceRec where
  userId := user.sub
  displayName := user.displayName
  email := user.email
  status := "present"
  matcherDistance := r.distance
  recognized := some (r.recognized && decide (r.userId = some user.sub))
  recognizedUserId := r.userId
  recognitionNote := some
    (if ¬r.recognized then noteNotFound
     else if r.userId ≠ some user.sub then noteOtherUser
     else noteSameUser)

/-- The fallback record written by the catch block of `handleCapture`
(`src/unnamed/part_005`, lines 128–135). -/
def fallbackRec (user : UserT) : PresenceRec where
  userId := user.sub
  displayName := user.displayName
  email := user.email
  status := "present"
  matcherDistance := none
  recognized := none
  recognizedUserId := none
  recognitionNote := some noteFallback

/-- What one run of a capture handler leaves behind: the `presences`
documents written, the `success` state, whether `setError` was called with a
message, and the final status text. -/
structure CaptureResult where
  records : List PresenceRec
  success : Option PresenceRec
  errorSet : Bool
  pageStatus : String
deriving DecidableEq, Repr

/-- The catch block of `handleCapture` (`src/unnamed/part_005`, lines
125–138): sets the error, writes the fallback record and reports success —
unless the `presences` write itself fails, in which case the rethrow leaves
no record and the last status text in place. -/
def catchFlow (user : UserT) (registerOk : Bool) (lastStatus : String) :
    CaptureResult :=
  if registerOk then
    ⟨[fallbackRec user], some (fallbackRec user), true, stFallback⟩
  else ⟨[], none, true, lastStatus⟩

/-- `handleCapture` of the presence page with embedding write-through
(`src/unnamed/part_005`, lines 60–142).  The awaited collaborators are
passed as outcomes: `emb` is `createEmbeddingFromBlob` (`ok none` = no face
detected), `persist` is the `getFace`/`upsertFace`/`addEmbedding` write,
`rebuild` is `loadFaceMatcher`, `recog` is `recognizeUserByFace`, and
`registerOk` tells whether `addDoc` on `presences` succeeds.  Any throw falls
into the catch block. -/
def handleCapture (user : UserT) (emb : Outcome (Option Vec))
    (persist : Outcome Unit) (rebuild : Outcome Unit)
    (recog : Outcome RecognizeResult) (registerOk : Bool) : CaptureResult :=
  match emb with
  | .fail => catchFlow user registerOk stEmbedding
  | .ok none => ⟨[], none, false, stNoFace⟩
  | .ok (some _) =>
    match persist with
    | .fail => catchFlow user registerOk stEmbedding
    | .ok _ =>
      match rebuild with
      | .fail => catchFlow user registerOk stEmbedding
      | .ok _ =>
        match recog with
        | .fail => catchFlow user registerOk stRecognizing
        | .ok r =>
          let record := mkPresenceRec user r
          if registerOk then
            ⟨[record], some record, false,
              if r.recognized && decide (r.userId = some user.sub) then
                stSuccessSame
              else stSuccessOther⟩
          else catchFlow user false stRecognizing

/-- The `"denied"` record the older presence page writes when nothing is
recognized (`src/unnamed/part_006`, lines 66–73). -/
def deniedRecOld (user : UserT) : PresenceRec where
  userId := user.sub
  displayName := user.displayName
  email := user.email
  status := "denied"
  matcherDistance := none
  recognized := none
  recognizedUserId := none
  recognitionNote := none

/-- The `"present"` record the older presence page writes on a same-user
match (`src/unnamed/part_006`, lines 83–90). -/
def presentRecOld (user : UserT) (d : ℚ) : PresenceRec where
  userId := user.sub
  displayName := user.displayName
  email := user.email
  status := "present"
  matcherDistance := some d
  recognized := none
  recognizedUserId := none
  recognitionNote := none

/-- `handleCapture` of the older presence page (`src/unnamed/part_006`,
lines 53–102, identical to `src/pages/PresencePage.tsx`): no match writes a
`"denied"` record; a match belonging to another user sets an error and
returns **without writing any record**; a same-user match writes a
`"present"` record.  Its catch block writes nothing. -/
def handleCaptureOld (user : UserT) (recog : Outcome RecognizeResult)
    (registerOk : Bool) : CaptureResult :=
  match recog with
  | .fail => ⟨[], none, true, ""⟩
  | .ok .noMatch =>
    if registerOk then ⟨[deniedRecOld user], none, true, ""⟩
    else ⟨[], none, true, ""⟩
  | .ok (.matched uid d) =>
    if uid ≠ user.sub then ⟨[], none, true, "Possível tentativa indevida."⟩
    else if registerOk then
      ⟨[presentRecOld user d], some (presentRecOld user d), false,
        "Presença registrada com sucesso."⟩
    else ⟨[], none, true, ""⟩

/-- Component state of the Dashboard check-in flow
(`src/unnamed/part_004`, lines 22–125). -/
structure DashState where
  selectedClassId : Option String
  showCamera : Bool
  cameraError : Option String
  activeRecord : Option String
deriving DecidableEq, Repr

/-- `handleFaceCapture` of the Dashboard (`src/unnamed/part_004`, lines
84–125): aborts untouched without a selected class; on success stores the
record and closes the camera; on any error (geolocation or the backend
call, e.g. «Nenhum rosto detectado…») it only sets the camera error — the
camera stays open and the selected class is kept so the user can retry in
place. -/
def handleFaceCaptureDash (st : DashState) (call : Except String String) :
    DashState :=
  match st.selectedClassId with
  | none => st
  | some _ =>
    match call with
    | .ok recId =>
      { st with activeRecord := some recId, showCamera := false,
                cameraError := none }
    | .error msg => { st with cameraError := some msg }

/-! ## Model loading (single-flight initializer) -/

/-- The module-level state of the recognition service:
`let loaded = false; let matcher …; let loadingPromise … = null;`.
`loadingPromise` holds the identifier of the in-flight load; `nextId` is a
supply of fresh promise identifiers. -/
structure LoadState where
  loaded : Bool
  loadingPromise : Option ℕ
  nextId : ℕ
deriving DecidableEq, Repr

/-- What one synchronous call to the loader does before it suspends:
nothing (already loaded), start a fresh load, or await an in-flight one. -/
inductive LoadAction where
  | noop : LoadAction
  | startLoad : ℕ → LoadAction
  | awaitExisting : ℕ → LoadAction
deriving DecidableEq, Repr

/-- `loadModels` of the current recognition service
(`src/src/services/facesRepository.ts`, recognition part, lines 101–122):
`if (loaded) return; if (!loadingPromise) { loadingPromise = … } await
loadingPromise;`.  Each call runs synchronously up to its first `await`
(JavaScript run-to-completion), so one call is one atomic step on the module
state. -/
def loadModels (s : LoadState) : LoadState × LoadAction :=
  if s.loaded then (s, .noop)
  else
    match s.loadingPromise with
    | some pid => (s, .awaitExisting pid)
    | none =>
      ({ s with loadingPromise := some s.nextId, nextId := s.nextId + 1 },
        .startLoad s.nextId)

/-- `loadModels` of the older service variant (`src/unnamed/part_001`, lines
9–19): `if (loaded) return; await Promise.all([…]); loaded = true;` — there
is no `loadingPromise` guard, so every call that arrives while `loaded` is
still false starts its own load. -/
def loadModelsOld (s : LoadState) : LoadState × LoadAction :=
  if s.loaded then (s, .noop)
  else ({ s with nextId := s.nextId + 1 }, .startLoad s.nextId)

/-- `n` concurrent callers entering a loader back to back, before any load
completes: the sequence of synchronous steps and the resulting state. -/
def callSeq (n : ℕ) (step : LoadState → LoadState × LoadAction)
    (s : LoadState) : LoadState × List LoadAction :=
  match n with
  | 0 => (s, [])
  | n + 1 =>
    let p := step s
    let q := callSeq n step p.1
    (q.1, p.2 :: q.2)

/-! ## Theorems -/

-- Helper lemmas for gallery construction.

theorem toLabeledDescriptor_list_nil (p : FaceDoc)
    (hp : p.embeddings = .list []) :
    toLabeledDescriptor p = some (p.userId, []) := by
  simp [toLabeledDescriptor, hp]

theorem buildGallery_middle_empty (p : FaceDoc) (hp : p.embeddings = .list [])
    (as bs : List FaceDoc) :
    buildGallery (as ++ p :: bs) = buildGallery (as ++ bs) := by
  induction as with
  | nil =>
    simp only [List.nil_append, buildGallery, toLabeledDescriptor_list_nil p hp]
    cases buildGallery bs <;> simp
  | cons a rest ih =>
    simp only [List.cons_append, buildGallery]
    cases toLabeledDescriptor a with
    | none => rfl
    | some lv =>
      simp only [List.append_eq]
      rw [ih]

/-- Claim C1 (amended): for every probe and non-empty gallery none of whose
labels is the reserved sentinel `"unknown"`, the matcher accepts exactly when
the minimum (squared) distance over all gallery samples is at most the
(squared) threshold — the boundary case `distance = threshold` is accepted —
and the default threshold is 0.6. -/
theorem recognize_accepts_iff_min_distance_le (g : Gallery) (probe : Vec)
    (τ : ℚ) (hne : g ≠ []) (hunk : "unknown" ∉ g.map Prod.fst) :
    ((recognizeUserByFace g (some probe) τ).recognized = true ↔
      minDist2 probe g ≤ τ ^ 2) ∧ defaultThreshold = 3 / 5 := by
  constructor
  · obtain ⟨l, hfb, hmem⟩ := findBestMatch_eq g probe hne
    have hl : ¬l = "unknown" := fun h => hunk (h ▸ hmem)
    simp only [recognizeUserByFace, hfb]
    by_cases hle : minDist2 probe g ≤ τ ^ 2
    · rw [if_neg]
      · simp [RecognizeResult.recognized, hle]
      · exact not_or.mpr ⟨hl, not_lt.mpr hle⟩
    · rw [if_pos (Or.inr (not_le.mp hle))]
      simp [RecognizeResult.recognized, hle]
  · norm_num [defaultThreshold]

/-- Claim C1 (counterexample): a gallery sample may carry the reserved label
`"unknown"` (nothing prevents a face document with `userId = "unknown"`); the
probe is then rejected by the `bestMatch.label === 'unknown'` check of
`recognizeUserByFace` even though its best distance 0 is at most the default
threshold, refuting «accepts exactly when the minimum distance ≤
threshold». -/
theorem recognize_rejects_reserved_unknown_label :
    recognizeUserByFace [("unknown", ([0] : Vec))] (some [0]) defaultThreshold
        = .noMatch ∧
      minDist2 [0] [("unknown", ([0] : Vec))] ≤ defaultThreshold ^ 2 := by
  constructor
  · rfl
  · norm_num [minDist2, dist2, defaultThreshold]

/-- Claim C1 (witness): the amended theorem applied to the one-sample gallery
`[("u1", [1, 0])]`. -/
theorem recognize_accepts_iff_min_distance_le_witness :
    ((recognizeUserByFace [("u1", ([1, 0] : Vec))] (some [1, 0])
        defaultThreshold).recognized = true ↔
      minDist2 [1, 0] [("u1", ([1, 0] : Vec))] ≤ defaultThreshold ^ 2) ∧
      defaultThreshold = 3 / 5 :=
  recognize_accepts_iff_min_distance_le _ _ _ (by decide) (by decide)

/-- Claim C3: a face document whose `embeddings` field is stored in the
keyed-mapping shape — the shape `types.ts` declares and `upsertFace` /
`addEmbedding` normalize to — makes the gallery build throw
(`face.embeddings.map is not a function`), instead of expanding to one
labelled sample per entry as the specification's §4.3 expansion
(`specBuildGallery`) does. -/
theorem gallery_build_crashes_on_keyed_mapping :
    buildGallery [⟨"u1", "User One", "u1@mail.com", true,
        .mapp [("0", ([1, 0] : Vec))]⟩] = none ∧
      specBuildGallery [⟨"u1", "User One", "u1@mail.com", true,
        .mapp [("0", ([1, 0] : Vec))]⟩] = [("u1", [1, 0])] := by
  constructor <;> rfl

/-- Claim C4 (amended): a profile whose zero embeddings are stored in the
list shape contributes nothing to the gallery: match results on any probe
and threshold are the same as if the profile were absent, even when it is
active.  (A zero-embedding profile in the keyed-mapping shape instead
crashes the gallery build — see the counterexample below.) -/
theorem empty_profile_excluded_from_matching (xs ys : List FaceDoc)
    (p : FaceDoc) (detection : Option Vec) (τ : ℚ)
    (hp : p.embeddings = .list []) :
    recognizeFromFaces (xs ++ p :: ys) detection τ =
      recognizeFromFaces (xs ++ ys) detection τ := by
  unfold recognizeFromFaces
  rw [List.filter_append, List.filter_append]
  by_cases ha : p.active
  · rw [List.filter_cons_of_pos (by simpa using ha)]
    rw [buildGallery_middle_empty p hp]
  · rw [List.filter_cons_of_neg (by simpa using ha)]

/-- Claim C4 (counterexample): an active profile with zero embeddings stored
in the keyed-mapping shape (`.mapp []`, an empty `Record` — the shape
`types.ts` declares and the store's normalization writes; `({}).map` throws)
is **not** excluded from matching: its presence crashes the gallery build
(`none`), whereas without it the same probe yields the ordinary
`some .noMatch`, refuting «match results against the built gallery are the
same as if that profile were absent». -/
theorem empty_mapping_profile_not_excluded :
    recognizeFromFaces [⟨"ub", "B", "b@mail.com", true, .mapp []⟩]
        (some [1]) defaultThreshold = none ∧
      recognizeFromFaces ([] : List FaceDoc) (some [1]) defaultThreshold =
        some .noMatch := by
  constructor <;> rfl

/-- Claim C4 (witness): the amended theorem applied to a concrete active
profile with an empty embedding list placed between two other profiles. -/
theorem empty_profile_excluded_from_matching_witness :
    recognizeFromFaces
        ([⟨"ua", "A", "a@mail.com", true, .list [[1, 0]]⟩] ++
          ⟨"ub", "B", "b@mail.com", true, .list []⟩ ::
            [⟨"uc", "C", "c@mail.com", false, .list [[0, 1]]⟩])
        (some [1, 0]) defaultThreshold =
      recognizeFromFaces
        ([⟨"ua", "A", "a@mail.com", true, .list [[1, 0]]⟩] ++
          [⟨"uc", "C", "c@mail.com", false, .list [[0, 1]]⟩])
        (some [1, 0]) defaultThreshold :=
  empty_profile_excluded_from_matching _ _ _ _ _ rfl

/-- Claim C5: with no active profile the gallery is empty, and matching any
probe returns the ordinary `{ recognized: false }` value (`some .noMatch`:
the pipeline does not throw). -/
theorem empty_gallery_yields_noMatch (faces : List FaceDoc)
    (detection : Option Vec) (τ : ℚ)
    (hactive : faces.filter (·.active) = []) :
    recognizeFromFaces faces detection τ = some .noMatch := by
  unfold recognizeFromFaces
  rw [hactive]
  cases detection <;> rfl

/-- Claim C5 (witness): the theorem applied to a snapshot holding one
inactive profile. -/
theorem empty_gallery_yields_noMatch_witness :
    recognizeFromFaces [⟨"u1", "U", "u@mail.com", false, .list [[1]]⟩]
        (some [2, 3]) defaultThreshold = some .noMatch :=
  empty_gallery_yields_noMatch _ _ _ (by decide)

/-- Claim C8 (amended): the enrollment averaging step performs no dimension
check — for every non-empty sample list, also one with vectors of differing
lengths, it still produces a result vector; there is no `DimensionMismatch`
failure in the code. -/
theorem averaging_total_on_nonempty (samples : List (List ℚ))
    (hne : samples ≠ []) :
    ∃ v, averageEmbedding samples = some v := by
  match samples with
  | [] => exact absurd rfl hne
  | first :: rest => exact ⟨_, rfl⟩

/-- Claim C8 (counterexample): averaging the mismatched-length samples
`[1, 0]` and `[3, 0, 5]` does not fail — the code silently produces a
three-slot "average" whose third entry is `NaN` (the loop adds `5` to the
`undefined` slot beyond the first sample's length), refuting «fails with a
`DimensionMismatch` condition (it does not produce an average)». -/
theorem mismatched_lengths_average_produced :
    averageEmbedding [[1, 0], [3, 0, 5]] = some [some 2, some 0, none] := by
  simp only [averageEmbedding, List.foldl_cons, List.foldl_nil, addInto,
    jsAdd, List.length_cons, List.length_nil, List.length_replicate,
    List.replicate, List.map_cons, List.map_nil, Option.map_some,
    Option.map_none, Option.some.injEq, List.cons.injEq]
  norm_num

/-- Claim C8 (witness): the amended theorem applied to another
mismatched-length sample list. -/
theorem averaging_total_on_nonempty_witness :
    ∃ v, averageEmbedding [[1], [2, 3]] = some v :=
  averaging_total_on_nonempty _ (by decide)

/-- Claim C7 (amended): a check-in whose computed distance exceeds the
backend's fixed 30-metre limit (`MAX_DISTANCE`; the class's `radius_meters`
column is never consulted) is rejected: the transaction is rolled back so no
audit row is written, and the 400 message contains the measured (rounded)
distance. -/
theorem geofence_reject_rolls_back_with_distance (req : CheckInReq)
    (env : CheckInEnv) (c : ClassRow) (hfile : req.hasFile = true)
    (hcoords : req.coords ≠ none) (hrow : env.classRow = some c)
    (hfar : c.distanceMeters > MAX_DISTANCE) :
    checkIn req env =
        .rejected ("Localização inválida. Você está a " ++
          toString (jsRound c.distanceMeters) ++ "m da sala. Aproxime-se.") ∧
      (checkIn req env).rowsWritten = [] := by
  have h : checkIn req env =
      .rejected ("Localização inválida. Você está a " ++
        toString (jsRound c.distanceMeters) ++ "m da sala. Aproxime-se.") := by
    simp [checkIn, hfile, hcoords, hrow, hfar]
  exact ⟨h, by rw [h]; rfl⟩

/-- Claim C7 (counterexample): the endpoint checks the distance only against
the constant 30, not against the class's `radiusMeters`: a request at 20 m
from a class whose radius is 10 m — distance exceeding `radiusMeters` — is
not rejected; the check-in succeeds and an audit row is committed, refuting
«rejected with a `ContextRejected` outcome, no attendance record
written». -/
theorem checkin_succeeds_beyond_radius_within_30m :
    (20 : ℚ) > (⟨(20 : ℚ), (10 : ℚ)⟩ : ClassRow).radiusMeters ∧
      checkIn ⟨"c1", true, some (0, 0)⟩
          ⟨some ⟨20, 10⟩, [⟨"f1", false, false, 0⟩]⟩ =
        .success [⟨"c1", "f1", 1⟩] 20 := by
  constructor
  · norm_num
  · simp only [checkIn, MAX_DISTANCE]
    norm_num [jsRound]
    exact fun h => absurd h (Option.some_ne_none _)

/-- Claim C7 (witness): the amended theorem at the specification's Scenario E
input — distance 45 m against the 30 m limit; the message carries «45». -/
theorem geofence_reject_rolls_back_with_distance_witness :
    checkIn ⟨"c1", true, some (0, 0)⟩ ⟨some ⟨45, 30⟩, []⟩ =
        .rejected ("Localização inválida. Você está a " ++
          toString (jsRound (45 : ℚ)) ++ "m da sala. Aproxime-se.") ∧
      (checkIn ⟨"c1", true, some (0, 0)⟩ ⟨some ⟨45, 30⟩, []⟩).rowsWritten
        = [] :=
  geofence_reject_rolls_back_with_distance _ _ ⟨45, 30⟩ rfl (by decide) rfl
    (by norm_num [MAX_DISTANCE])

/-- Claim C2 (amended): in the presence flow with embedding write-through
(`src/unnamed/part_005`), a check-in whose match belongs to another user
still writes exactly one record with `status = "present"`,
`recognized = false`, `recognizedUserId` set to the mismatched identity and
the «belongs to another user» note — attendance is granted and flagged, not
blocked. -/
theorem mismatch_still_records_present (user : UserT) (v : Vec)
    (uid : String) (d : ℚ) (h : uid ≠ user.sub) :
    handleCapture user (.ok (some v)) (.ok ()) (.ok ())
        (.ok (.matched uid d)) true =
      ⟨[mkPresenceRec user (.matched uid d)],
        some (mkPresenceRec user (.matched uid d)), false, stSuccessOther⟩ ∧
    (mkPresenceRec user (.matched uid d)).status = "present" ∧
    (mkPresenceRec user (.matched uid d)).recognized = some false ∧
    (mkPresenceRec user (.matched uid d)).recognizedUserId = some uid ∧
    (mkPresenceRec user (.matched uid d)).recognitionNote =
      some noteOtherUser := by
  refine ⟨?_, rfl, ?_, rfl, ?_⟩
  · simp [handleCapture, RecognizeResult.recognized, RecognizeResult.userId, h]
  · simp [mkPresenceRec, RecognizeResult.recognized, RecognizeResult.userId, h]
  · simp [mkPresenceRec, RecognizeResult.recognized, RecognizeResult.userId, h]

/-- Claim C2 (counterexample): in the older presence page
(`src/unnamed/part_006`, also `src/pages/PresencePage.tsx`), when the matcher
returns `Match{U2, 0.2}` for claiming identity `U1` the handler sets an
error and returns: **no** attendance record is written at all, refuting «for
every check-in attempt … an attendance record is still written». -/
theorem mismatch_writes_no_record_in_old_page :
    handleCaptureOld ⟨"U1", "Alice", "alice@mail.com"⟩
        (.ok (.matched "U2" (1 / 25))) true =
      ⟨[], none, true, "Possível tentativa indevida."⟩ ∧
    (handleCaptureOld ⟨"U1", "Alice", "alice@mail.com"⟩
        (.ok (.matched "U2" (1 / 25))) true).records = [] := by
  constructor <;> simp [handleCaptureOld]

/-- Claim C2 (witness): the amended theorem at claiming identity `U1` and
matched identity `U2` at (squared) distance `0.2² = 1/25`. -/
theorem mismatch_still_records_present_witness :
    handleCapture ⟨"U1", "Alice", "alice@mail.com"⟩ (.ok (some [1]))
        (.ok ()) (.ok ()) (.ok (.matched "U2" (1 / 25))) true =
      ⟨[mkPresenceRec ⟨"U1", "Alice", "alice@mail.com"⟩
          (.matched "U2" (1 / 25))],
        some (mkPresenceRec ⟨"U1", "Alice", "alice@mail.com"⟩
          (.matched "U2" (1 / 25))), false, stSuccessOther⟩ ∧
    (mkPresenceRec ⟨"U1", "Alice", "alice@mail.com"⟩
        (.matched "U2" (1 / 25))).status = "present" ∧
    (mkPresenceRec ⟨"U1", "Alice", "alice@mail.com"⟩
        (.matched "U2" (1 / 25))).recognized = some false ∧
    (mkPresenceRec ⟨"U1", "Alice", "alice@mail.com"⟩
        (.matched "U2" (1 / 25))).recognizedUserId = some "U2" ∧
    (mkPresenceRec ⟨"U1", "Alice", "alice@mail.com"⟩
        (.matched "U2" (1 / 25))).recognitionNote = some noteOtherUser :=
  mismatch_still_records_present _ _ _ _ (by decide)

/-- Claim C6: when the embedding step finds no face, the presence handler
returns without writing any record, without setting an error, with the
retry prompt as status — and in the Dashboard check-in flow an error from
the capture attempt preserves the selected class, the open camera and the
active record, so the user retries in place. -/
theorem no_face_no_record_state_preserved :
    (∀ (user : UserT) (persist rebuild : Outcome Unit)
        (recog : Outcome RecognizeResult) (registerOk : Bool),
      handleCapture user (.ok none) persist rebuild recog registerOk =
        ⟨[], none, false, stNoFace⟩) ∧
    (∀ (st : DashState) (msg : String),
      (handleFaceCaptureDash st (.error msg)).selectedClassId =
          st.selectedClassId ∧
        (handleFaceCaptureDash st (.error msg)).showCamera = st.showCamera ∧
        (handleFaceCaptureDash st (.error msg)).activeRecord =
          st.activeRecord) := by
  constructor
  · intro user persist rebuild recog registerOk
    rfl
  · intro st msg
    cases h : st.selectedClassId <;> simp [handleFaceCaptureDash, h]

/-- Claim C10: once a face has been detected, a failure of the sample
persistence, of the matcher rebuild or of recognition still ends with
exactly the fallback `"present"` record written (given the fallback write
succeeds); no post-detection error leaves zero records, and no written
record is `"denied"`. -/
theorem post_detection_failure_writes_fallback (user : UserT) (v : Vec)
    (persist rebuild : Outcome Unit) (recog : Outcome RecognizeResult)
    (h : persist = .fail ∨ rebuild = .fail ∨ recog = .fail) :
    handleCapture user (.ok (some v)) persist rebuild recog true =
      ⟨[fallbackRec user], some (fallbackRec user), true, stFallback⟩ ∧
    (fallbackRec user).status = "present" ∧
    ∀ r ∈ (handleCapture user (.ok (some v)) persist rebuild recog
        true).records, r.status ≠ "denied" := by
  have hmain : handleCapture user (.ok (some v)) persist rebuild recog true =
      ⟨[fallbackRec user], some (fallbackRec user), true, stFallback⟩ := by
    rcases h with h | h | h
    · subst h
      rfl
    · subst h
      cases persist with
      | fail => rfl
      | ok u => rfl
    · subst h
      cases persist with
      | fail => rfl
      | ok u =>
        cases rebuild with
        | fail => rfl
        | ok w => rfl
  refine ⟨hmain, rfl, ?_⟩
  rw [hmain]
  intro r hr
  rw [List.mem_singleton] at hr
  subst hr
  show "present" ≠ "denied"
  decide

/-- Claim C10 (witness): the theorem at a concrete attempt whose matcher
rebuild throws. -/
theorem post_detection_failure_writes_fallback_witness :
    handleCapture ⟨"U1", "Alice", "alice@mail.com"⟩ (.ok (some [1]))
        (.ok ()) .fail (.ok .noMatch) true =
      ⟨[fallbackRec ⟨"U1", "Alice", "alice@mail.com"⟩],
        some (fallbackRec ⟨"U1", "Alice", "alice@mail.com"⟩), true,
        stFallback⟩ ∧
    (fallbackRec ⟨"U1", "Alice", "alice@mail.com"⟩).status = "present" ∧
    ∀ r ∈ (handleCapture ⟨"U1", "Alice", "alice@mail.com"⟩ (.ok (some [1]))
        (.ok ()) .fail (.ok .noMatch) true).records, r.status ≠ "denied" :=
  post_detection_failure_writes_fallback _ _ _ _ _ (Or.inr (Or.inl rfl))

-- Helper lemmas for the single-flight loader.

theorem callSeq_loaded (n : ℕ) (s : LoadState) (h : s.loaded = true) :
    callSeq n loadModels s = (s, List.replicate n .noop) := by
  induction n with
  | zero => rfl
  | succ n ih =>
    have hstep : loadModels s = (s, .noop) := by simp [loadModels, h]
    simp [callSeq, hstep, ih, List.replicate_succ]

theorem callSeq_inflight (n : ℕ) (s : LoadState) (pid : ℕ)
    (h1 : s.loaded = false) (h2 : s.loadingPromise = some pid) :
    callSeq n loadModels s = (s, List.replicate n (.awaitExisting pid)) := by
  induction n with
  | zero => rfl
  | succ n ih =>
    have hstep : loadModels s = (s, .awaitExisting pid) := by
      simp [loadModels, h1, h2]
    simp [callSeq, hstep, ih, List.replicate_succ]

theorem callSeq_fresh (n : ℕ) (s : LoadState) (h1 : s.loaded = false)
    (h2 : s.loadingPromise = none) :
    (callSeq (n + 1) loadModels s).2 =
      .startLoad s.nextId :: List.replicate n (.awaitExisting s.nextId) := by
  have hstep : loadModels s =
      ({ s with loadingPromise := some s.nextId, nextId := s.nextId + 1 },
        .startLoad s.nextId) := by
    simp [loadModels, h1, h2]
  have hrest := callSeq_inflight n
    { s with loadingPromise := some s.nextId, nextId := s.nextId + 1 }
    s.nextId (by simp [h1]) (by simp)
  simp [callSeq, hstep, hrest]

/-- Claim C9 (amended): the current loader (`facesRepository.ts` recognition
part) is a single-flight idempotent initializer: with the loaded flag set
every call is a no-op; while a load is in flight every call awaits that same
promise; and from a fresh state the first caller starts exactly one load and
each further concurrent caller awaits it. -/
theorem loadModels_single_flight :
    (∀ (n : ℕ) (s : LoadState), s.loaded = true →
      callSeq n loadModels s = (s, List.replicate n .noop)) ∧
    (∀ (n : ℕ) (s : LoadState) (pid : ℕ), s.loaded = false →
      s.loadingPromise = some pid →
      callSeq n loadModels s = (s, List.replicate n (.awaitExisting pid))) ∧
    (∀ (n : ℕ) (s : LoadState), s.loaded = false →
      s.loadingPromise = none →
      (callSeq (n + 1) loadModels s).2 =
        .startLoad s.nextId ::
          List.replicate n (.awaitExisting s.nextId)) :=
  ⟨callSeq_loaded, callSeq_inflight, callSeq_fresh⟩

/-- Claim C9 (counterexample): the older loader (`src/unnamed/part_001`) has
no in-flight guard: two concurrent callers entering before the load
completes each start their own load (`startLoad 0` and `startLoad 1`),
refuting «every concurrent caller awaits the same in-flight load rather than
starting a duplicate load». -/
theorem loadModelsOld_duplicate_loads :
    (callSeq 2 loadModelsOld ⟨false, none, 0⟩).2 =
      [.startLoad 0, .startLoad 1] := rfl

/-- Claim C9 (witness): the amended theorem's three parts at concrete
states. -/
theorem loadModels_single_flight_witness :
    callSeq 2 loadModels ⟨true, none, 5⟩ =
        (⟨true, none, 5⟩, List.replicate 2 .noop) ∧
      callSeq 2 loadModels ⟨false, some 7, 9⟩ =
        (⟨false, some 7, 9⟩, List.replicate 2 (.awaitExisting 7)) ∧
      (callSeq 3 loadModels ⟨false, none, 0⟩).2 =
        .startLoad 0 :: List.replicate 2 (.awaitExisting 0) :=
  ⟨loadModels_single_flight.1 2 _ rfl,
    loadModels_single_flight.2.1 2 _ 7 rfl rfl,
    loadModels_single_flight.2.2 2 ⟨false, none, 0⟩ rfl rfl⟩
